import Mathlib

/-!
# Truth Prevails — verification of the hash-registry / upload / tamper-heuristic flow

Shallow embedding of the core logic of the Truth Prevails repository:

* the `ethers.sha256` content digest used by both upload paths
  (`backend/src/routes/verification.js` `generateFileHash`,
  `frontend/lib/blockchain.ts` `BlockchainService.generateFileHash`);
* the `TruthProof` Solidity registry contract (`submitHash`, `verifyHash`,
  `getRecentHashes`);
* the backend upload handler (`backend/src/config/cloudinary.js`,
  the POST /upload handler), including its ordering of the Cloudinary write
  and the per-user duplicate check;
* the submit-for-verification handler
  (`backend/src/routes/verification.js`, the POST /submit/:fileId handler);
* the public verify endpoint, its batch variant, and the blockchain read
  wrapper `verifyHashOnBlockchain`;
* the tamper-detection heuristics
  (`backend/src/routes/tamper-detection.js`).

Machine words are `Nat` with explicit `% 2^32`; byte buffers are `List Nat`
(each entry one byte); fallible handlers return `Except`/sum-like result
types mirroring the HTTP status branches of the source.
-/

set_option maxRecDepth 100000

namespace Sha256

/-- 2^32, the modulus for 32-bit words. -/
def M32 : Nat := 4294967296

/-- 32-bit addition (`Nat` with explicit wraparound). -/
def add32 (a b : Nat) : Nat := (a + b) % M32

/-- Right rotation of a 32-bit word by `n` bits. -/
def rotr32 (n x : Nat) : Nat := ((x >>> n) ||| ((x % 2 ^ n) <<< (32 - n))) % M32

/-- Bitwise complement on 32 bits. -/
def not32 (x : Nat) : Nat := 4294967295 ^^^ x

/-- SHA-256 round constants (FIPS 180-4). -/
def K : List Nat :=
  [1116352408, 1899447441, 3049323471, 3921009573, 961987163,
   1508970993, 2453635748, 2870763221, 3624381080, 310598401,
   607225278, 1426881987, 1925078388, 2162078206, 2614888103,
   3248222580, 3835390401, 4022224774, 264347078, 604807628,
   770255983, 1249150122, 1555081692, 1996064986, 2554220882,
   2821834349, 2952996808, 3210313671, 3336571891, 3584528711,
   113926993, 338241895, 666307205, 773529912, 1294757372,
   1396182291, 1695183700, 1986661051, 2177026350, 2456956037,
   2730485921, 2820302411, 3259730800, 3345764771, 3516065817,
   3600352804, 4094571909, 275423344, 430227734, 506948616,
   659060556, 883997877, 958139571, 1322822218, 1537002063,
   1747873779, 1955562222, 2024104815, 2227730452, 2361852424,
   2428436474, 2756734187, 3204031479, 3329325298]

/-- Message padding: append `0x80`, zero bytes up to 56 mod 64, then the
bit length as 8 big-endian bytes. -/
def pad (msg : List Nat) : List Nat :=
  let len := msg.length
  let zeros := (55 + 64 - len % 64) % 64
  let lenBytes := (List.range 8).map (fun i => ((8 * len) >>> (8 * (7 - i))) % 256)
  msg ++ [0x80] ++ List.replicate zeros 0 ++ lenBytes

/-- Split a byte list into 64-byte chunks (structural recursion on a fuel
bound by the length, so that the definition computes by reduction). -/
def chunksAux : Nat → List Nat → List (List Nat)
  | 0, _ => []
  | _, [] => []
  | fuel + 1, l => (l.take 64) :: chunksAux fuel (l.drop 64)

/-- Split a byte list into 64-byte chunks. -/
def chunks64 (l : List Nat) : List (List Nat) := chunksAux l.length l

/-- Group bytes into big-endian 32-bit words. -/
def toWords : List Nat → List Nat
  | b0 :: b1 :: b2 :: b3 :: rest =>
      ((b0 <<< 24) + (b1 <<< 16) + (b2 <<< 8) + b3) :: toWords rest
  | _ => []

/-- σ₀ of the message schedule. -/
def ssig0 (x : Nat) : Nat := (rotr32 7 x) ^^^ (rotr32 18 x) ^^^ (x >>> 3)

/-- σ₁ of the message schedule. -/
def ssig1 (x : Nat) : Nat := (rotr32 17 x) ^^^ (rotr32 19 x) ^^^ (x >>> 10)

/-- Σ₀ of the compression function. -/
def bsig0 (x : Nat) : Nat := (rotr32 2 x) ^^^ (rotr32 13 x) ^^^ (rotr32 22 x)

/-- Σ₁ of the compression function. -/
def bsig1 (x : Nat) : Nat := (rotr32 6 x) ^^^ (rotr32 11 x) ^^^ (rotr32 25 x)

/-- Extend the 16 chunk words to the 64-entry message schedule. -/
def extendW (w : List Nat) : List Nat :=
  (List.range 48).foldl
    (fun acc _ =>
      let i := acc.length
      acc ++ [add32 (add32 (acc.getD (i - 16) 0) (ssig0 (acc.getD (i - 15) 0)))
                    (add32 (acc.getD (i - 7) 0) (ssig1 (acc.getD (i - 2) 0)))])
    w

/-- The eight working registers of the compression function. -/
structure Regs where
  a : Nat
  b : Nat
  c : Nat
  d : Nat
  e : Nat
  f : Nat
  g : Nat
  h : Nat

/-- Initial hash value (FIPS 180-4). -/
def initH : Regs :=
  ⟨1779033703, 3144134277, 1013904242, 2773480762,
   1359893119, 2600822924, 528734635, 1541459225⟩

/-- One round of the compression function. -/
def round (w : List Nat) (r : Regs) (i : Nat) : Regs :=
  let t1 := add32 (add32 (add32 (add32 r.h (bsig1 r.e))
              ((r.e &&& r.f) ^^^ ((not32 r.e) &&& r.g))) (K.getD i 0)) (w.getD i 0)
  let t2 := add32 (bsig0 r.a) ((r.a &&& r.b) ^^^ (r.a &&& r.c) ^^^ (r.b &&& r.c))
  ⟨add32 t1 t2, r.a, r.b, r.c, add32 r.d t1, r.e, r.f, r.g⟩

/-- Process one 64-byte chunk. -/
def compress (st : Regs) (chunk : List Nat) : Regs :=
  let w := extendW (toWords chunk)
  let r := (List.range 64).foldl (round w) st
  ⟨add32 st.a r.a, add32 st.b r.b, add32 st.c r.c, add32 st.d r.d,
   add32 st.e r.e, add32 st.f r.f, add32 st.g r.g, add32 st.h r.h⟩

/-- A 32-bit word as 4 big-endian bytes. -/
def wordBytes (w : Nat) : List Nat :=
  [(w >>> 24) % 256, (w >>> 16) % 256, (w >>> 8) % 256, w % 256]

/-- Serialize the final registers as the 32 digest bytes. -/
def digestBytes (r : Regs) : List Nat :=
  wordBytes r.a ++ wordBytes r.b ++ wordBytes r.c ++ wordBytes r.d ++
  wordBytes r.e ++ wordBytes r.f ++ wordBytes r.g ++ wordBytes r.h

/-- SHA-256 of a byte list, as the 32 digest bytes. -/
def sha256 (msg : List Nat) : List Nat :=
  digestBytes ((chunks64 (pad msg)).foldl compress initH)

/-- Lowercase hex digit for a value below 16. -/
def hexDigit (n : Nat) : Char :=
  if n < 10 then Char.ofNat (48 + n) else Char.ofNat (87 + n)

/-- Lowercase hex encoding of a byte list, two characters per byte. -/
def bytesToHex : List Nat → List Char
  | [] => []
  | b :: rest => hexDigit (b / 16) :: hexDigit (b % 16) :: bytesToHex rest

end Sha256

/-- `ethers.sha256(bytes)`: the SHA-256 digest rendered as a `0x`-prefixed
lowercase-hex string, as the ethers library returns it (a `DataHexString`).
Both upload paths call exactly this. -/
def ethersSha256 (msg : List Nat) : String :=
  String.mk (Char.ofNat 48 :: Char.ofNat 120 :: Sha256.bytesToHex (Sha256.sha256 msg))

/-- `generateFileHash` of `backend/src/routes/verification.js` (also duplicated
verbatim in `backend/src/config/cloudinary.js`): wraps the buffer in a
`Uint8Array` and returns `ethers.sha256` of it. -/
def generateFileHash (buffer : List Nat) : String := ethersSha256 buffer

/-- `BlockchainService.generateFileHash` of `frontend/lib/blockchain.ts`:
reads the file bytes and returns `ethers.sha256` of them. -/
def frontendGenerateFileHash (fileBytes : List Nat) : String := ethersSha256 fileBytes

/-- The `/api/verification/verify` body validator: the hash field must be
between 64 and 64 characters long (isLength with min 64 and max 64). -/
def hashLengthValid (s : String) : Bool :=
  64 ≤ s.length && s.length ≤ 64

namespace TruthProof

/-- The `FileVerification` struct of the `TruthProof` contract.  The Solidity
field `exists` is a Lean keyword; it is named `fvExists` here. -/
structure FileVerification where
  hash : Nat
  submitter : Nat
  timestamp : Nat
  fvExists : Bool
deriving DecidableEq, Repr

/-- The zero value a Solidity mapping yields for an absent key. -/
def FileVerification.zero : FileVerification := ⟨0, 0, 0, false⟩

/-- Contract storage: the `fileVerifications` mapping (total with zero
default, as Solidity mappings are) and the `allHashes` enumeration array. -/
structure State where
  fileVerifications : Nat → FileVerification
  allHashes : List Nat

/-- Storage at deployment: empty mapping, empty array. -/
def State.init : State := ⟨fun _ => FileVerification.zero, []⟩

/-- `submitHash(_hash)`: the `hashNotExists` modifier reverts when the hash is
already present, then `require(_hash != bytes32(0))` reverts on the zero hash;
otherwise the verification record is stored and the hash pushed onto
`allHashes`.  A revert is `Except.error` with the require message; the caller
and the block timestamp enter as `sender` and `blockTimestamp`. -/
def submitHash (st : State) (sender blockTimestamp h : Nat) : Except String State :=
  if (st.fileVerifications h).fvExists then .error "Hash already exists"
  else if h = 0 then .error "Invalid hash"
  else .ok
    { fileVerifications := fun k =>
        if k = h then ⟨h, sender, blockTimestamp, true⟩ else st.fileVerifications k,
      allHashes := st.allHashes ++ [h] }

/-- `verifyHash(_hash)`: total read returning (exists, submitter, timestamp),
zero-valued for an absent hash. -/
def verifyHash (st : State) (h : Nat) : Bool × Nat × Nat :=
  let v := st.fileVerifications h
  (v.fvExists, v.submitter, v.timestamp)

/-- `getRecentHashes(_count)`: clamp the count to the array length and copy
`allHashes[totalHashes - count + i]` for `i < count`. -/
def getRecentHashes (st : State) (count : Nat) : List Nat :=
  let totalHashes := st.allHashes.length
  let c := if count > totalHashes then totalHashes else count
  (List.range c).map (fun i => st.allHashes.getD (totalHashes - c + i) 0)

/-- Sequential submissions from one sender, stopping at the first revert. -/
def submitMany (st : State) (sender blockTimestamp : Nat) : List Nat → Except String State
  | [] => .ok st
  | h :: rest =>
      match submitHash st sender blockTimestamp h with
      | .error e => .error e
      | .ok st' => submitMany st' sender blockTimestamp rest

end TruthProof

/-- C1: submitHash reverts on zero or present hashes, otherwise records
(hash, sender, timestamp, true) and appends to the enumeration; a present
hash is immutable under any further successful submission. -/
theorem submitHash_registry_spec (st : TruthProof.State) (s t h : Nat) :
    ((st.fileVerifications h).fvExists = true →
      TruthProof.submitHash st s t h = .error "Hash already exists")
    ∧ (h = 0 → ∃ e, TruthProof.submitHash st s t h = Except.error e)
    ∧ ((st.fileVerifications h).fvExists = false → h ≠ 0 →
        ∃ st', TruthProof.submitHash st s t h = .ok st'
          ∧ st'.fileVerifications h = ⟨h, s, t, true⟩
          ∧ st'.allHashes = st.allHashes ++ [h])
    ∧ ((st.fileVerifications h).fvExists = true →
        ∀ s' t' h' st', TruthProof.submitHash st s' t' h' = .ok st' →
          st'.fileVerifications h = st.fileVerifications h) := by
  refine ⟨?_, ?_, ?_, ?_⟩
  · intro hex
    simp [TruthProof.submitHash, hex]
  · intro h0
    subst h0
    by_cases hex : (st.fileVerifications 0).fvExists
    · exact ⟨"Hash already exists", by simp [TruthProof.submitHash, hex]⟩
    · exact ⟨"Invalid hash", by simp [TruthProof.submitHash, hex]⟩
  · intro hex hne
    refine ⟨⟨fun k => if k = h then ⟨h, s, t, true⟩ else st.fileVerifications k,
             st.allHashes ++ [h]⟩, ?_, ?_, rfl⟩
    · simp [TruthProof.submitHash, hex, hne]
    · simp
  · intro hex s' t' h' st' hok
    unfold TruthProof.submitHash at hok
    split at hok
    · exact absurd hok (by simp)
    · split at hok
      · exact absurd hok (by simp)
      · rename_i hex' h0
        rw [← Except.ok.inj hok]
        have hne : h ≠ h' := by
          intro heq
          rw [heq] at hex
          exact hex' hex
        simp [hne]

/-- C7 fixture: five distinct nonzero submissions, then the recent-3 window
and clamping. -/
theorem getRecentHashes_window (h1 h2 h3 h4 h5 s t : Nat)
    (n1 : h1 ≠ 0) (n2 : h2 ≠ 0) (n3 : h3 ≠ 0) (n4 : h4 ≠ 0) (n5 : h5 ≠ 0)
    (d21 : h2 ≠ h1) (d31 : h3 ≠ h1) (d32 : h3 ≠ h2)
    (d41 : h4 ≠ h1) (d42 : h4 ≠ h2) (d43 : h4 ≠ h3)
    (d51 : h5 ≠ h1) (d52 : h5 ≠ h2) (d53 : h5 ≠ h3) (d54 : h5 ≠ h4) :
    ∃ st : TruthProof.State,
      TruthProof.submitMany TruthProof.State.init s t [h1, h2, h3, h4, h5] = .ok st
      ∧ TruthProof.getRecentHashes st 3 = [h3, h4, h5]
      ∧ (∀ n, 5 < n → TruthProof.getRecentHashes st n = [h1, h2, h3, h4, h5]) := by
  simp only [TruthProof.submitMany, TruthProof.submitHash, TruthProof.State.init,
    TruthProof.FileVerification.zero]
  simp [n1, n2, n3, n4, n5, d21, d31, d32, d41, d42, d43, d51, d52, d53, d54]
  refine ⟨rfl, fun n hn => ?_⟩
  simp only [TruthProof.getRecentHashes, List.length_cons, List.length_nil]
  rw [if_pos (by omega : n > 0 + 1 + 1 + 1 + 1 + 1)]
  rfl

/-- Witness for `submitHash_registry_spec` at a concrete registry state. -/
theorem submitHash_registry_spec_witness :
    TruthProof.submitHash
      ⟨fun k => if k = 5 then ⟨5, 1, 2, true⟩ else TruthProof.FileVerification.zero, [5]⟩
      9 9 5 = .error "Hash already exists" :=
  (submitHash_registry_spec _ 9 9 5).1 (by decide)

/-- Witness for `getRecentHashes_window` on the concrete fixture 1..5. -/
theorem getRecentHashes_window_witness :
    ∃ st : TruthProof.State,
      TruthProof.submitMany TruthProof.State.init 7 11 [1, 2, 3, 4, 5] = .ok st
      ∧ TruthProof.getRecentHashes st 3 = [3, 4, 5]
      ∧ (∀ n, 5 < n → TruthProof.getRecentHashes st n = [1, 2, 3, 4, 5]) :=
  getRecentHashes_window 1 2 3 4 5 7 11 (by decide) (by decide) (by decide) (by decide)
    (by decide) (by decide) (by decide) (by decide) (by decide) (by decide) (by decide)
    (by decide) (by decide) (by decide) (by decide)

namespace Upload

/-- The Firestore `files` document written by the upload handler (the fields
the claims touch; `transactionHash` is absent until a submission succeeds). -/
structure FileRecord where
  userId : String
  fileName : String
  fileHash : String
  fileSize : Nat
  fileType : String
  walletAddress : String
  verificationStatus : String
  transactionHash : Option String
deriving DecidableEq, Repr

/-- The two stores the upload handler writes: the Cloudinary object store
(byte contents persisted) and the Firestore `files` collection. -/
structure Store where
  cloudObjects : List (List Nat)
  files : List FileRecord
deriving DecidableEq, Repr

/-- The duplicate query of the upload handler: the first `files` document
with this `fileHash` and this `userId` (where-where-limit 1). -/
def findUserFile (files : List FileRecord) (uid h : String) : Option FileRecord :=
  files.find? (fun r => r.fileHash == h && r.userId == uid)

/-- Outcome of the POST /upload handler, one constructor per response the
source can send on this path.  The 409 body also carries the existing
Firestore document id, an opaque identifier not modelled here. -/
inductive Result where
  | badRequest (message : String)
  | cloudError (details : String)
  | conflict (existingFileName : String)
  | created (record : FileRecord)
deriving DecidableEq, Repr

/-- The POST /upload handler of `backend/src/config/cloudinary.js`, in source
order: reject a missing buffer, upload the buffer to Cloudinary (modelled as
appending the bytes to `cloudObjects`; `cloudOk` is whether the upload
promise resolves), THEN run the per-user duplicate query, and only then
write the FileRecord with `verificationStatus = pending`.  `userWallet` is
the `walletAddress` read from the users collection (`unknown` when the user
document has none). -/
def uploadHandler (st : Store) (uid originalname mimetype : String)
    (buffer : Option (List Nat)) (cloudOk : Bool) (userWallet : Option String) :
    Result × Store :=
  match buffer with
  | none => (.badRequest "File buffer is missing", st)
  | some content =>
    let fileHash := generateFileHash content
    if !cloudOk then (.cloudError "Failed to upload to Cloudinary", st)
    else
      let st1 : Store := { st with cloudObjects := st.cloudObjects ++ [content] }
      match findUserFile st1.files uid fileHash with
      | some existing => (.conflict existing.fileName, st1)
      | none =>
          let record : FileRecord :=
            { userId := uid, fileName := originalname, fileHash := fileHash,
              fileSize := content.length, fileType := mimetype,
              walletAddress := userWallet.getD "unknown",
              verificationStatus := "pending", transactionHash := none }
          (.created record, { st1 with files := st1.files ++ [record] })

end Upload

/-- C2: the duplicate check is scoped to (user, hash): a user re-uploading
content they already hold gets the 409 conflict carrying the existing file
name and no new FileRecord, while a different user with no such record gets
a fresh pending FileRecord for the same content. -/
theorem upload_duplicate_scoped_per_user (st : Upload.Store)
    (u u' name name' mime mime' : String) (b : List Nat) (w w' : Option String)
    (r : Upload.FileRecord)
    (hdup : Upload.findUserFile st.files u (generateFileHash b) = some r)
    (hnone : Upload.findUserFile st.files u' (generateFileHash b) = none) :
    (Upload.uploadHandler st u name mime (some b) true w).1
        = Upload.Result.conflict r.fileName
    ∧ (Upload.uploadHandler st u name mime (some b) true w).2.files = st.files
    ∧ (∃ rec : Upload.FileRecord,
        (Upload.uploadHandler st u' name' mime' (some b) true w').1
            = Upload.Result.created rec
        ∧ (Upload.uploadHandler st u' name' mime' (some b) true w').2.files
            = st.files ++ [rec]
        ∧ rec.userId = u' ∧ rec.fileHash = generateFileHash b
        ∧ rec.verificationStatus = "pending") := by
  refine ⟨?_, ?_, ?_⟩
  · simp [Upload.uploadHandler, hdup]
  · simp [Upload.uploadHandler, hdup]
  · refine ⟨⟨u', name', generateFileHash b, b.length, mime', w'.getD "unknown",
        "pending", none⟩, ?_, ?_, rfl, rfl, rfl⟩
    · simp [Upload.uploadHandler, hnone]
    · simp [Upload.uploadHandler, hnone]

/-- Witness for `upload_duplicate_scoped_per_user` on a one-record store. -/
theorem upload_duplicate_scoped_per_user_witness :
    (Upload.uploadHandler
        ⟨[], [⟨"u", "old.txt", generateFileHash [], 0, "text/plain", "unknown",
              "pending", none⟩]⟩
        "u" "new.txt" "text/plain" (some []) true none).1
      = Upload.Result.conflict "old.txt"
    ∧ (Upload.uploadHandler
        ⟨[], [⟨"u", "old.txt", generateFileHash [], 0, "text/plain", "unknown",
              "pending", none⟩]⟩
        "u" "new.txt" "text/plain" (some []) true none).2.files
      = [⟨"u", "old.txt", generateFileHash [], 0, "text/plain", "unknown",
          "pending", none⟩]
    ∧ (∃ rec : Upload.FileRecord,
        (Upload.uploadHandler
            ⟨[], [⟨"u", "old.txt", generateFileHash [], 0, "text/plain", "unknown",
                  "pending", none⟩]⟩
            "v" "new.txt" "text/plain" (some []) true none).1
          = Upload.Result.created rec
        ∧ (Upload.uploadHandler
            ⟨[], [⟨"u", "old.txt", generateFileHash [], 0, "text/plain", "unknown",
                  "pending", none⟩]⟩
            "v" "new.txt" "text/plain" (some []) true none).2.files
          = [⟨"u", "old.txt", generateFileHash [], 0, "text/plain", "unknown",
              "pending", none⟩] ++ [rec]
        ∧ rec.userId = "v" ∧ rec.fileHash = generateFileHash []
        ∧ rec.verificationStatus = "pending") :=
  upload_duplicate_scoped_per_user
    ⟨[], [⟨"u", "old.txt", generateFileHash [], 0, "text/plain", "unknown",
          "pending", none⟩]⟩
    "u" "v" "new.txt" "new.txt" "text/plain" "text/plain" [] none none
    ⟨"u", "old.txt", generateFileHash [], 0, "text/plain", "unknown", "pending", none⟩
    (by decide) (by decide)

/-- C5 counterexample: a duplicate-rejected upload has already written the
bytes to the object store — the stores are not left unchanged. -/
theorem upload_duplicate_writes_object_store_counterexample :
    (Upload.uploadHandler
        ⟨[], [⟨"u", "old.txt", generateFileHash [1, 2, 3], 3, "text/plain", "unknown",
              "pending", none⟩]⟩
        "u" "new.txt" "text/plain" (some [1, 2, 3]) true none).1
      = Upload.Result.conflict "old.txt"
    ∧ (Upload.uploadHandler
        ⟨[], [⟨"u", "old.txt", generateFileHash [1, 2, 3], 3, "text/plain", "unknown",
              "pending", none⟩]⟩
        "u" "new.txt" "text/plain" (some [1, 2, 3]) true none).2.cloudObjects ≠ [] := by
  constructor
  · decide
  · decide

/-- C5 amended: the Cloudinary write precedes the duplicate check, so a
duplicate-rejected upload leaves the FileRecord store unchanged but has
appended the bytes to object storage. -/
theorem upload_duplicate_after_cloud_write (st : Upload.Store)
    (uid name mime : String) (b : List Nat) (w : Option String)
    (r : Upload.FileRecord)
    (hdup : Upload.findUserFile st.files uid (generateFileHash b) = some r) :
    Upload.uploadHandler st uid name mime (some b) true w
      = (Upload.Result.conflict r.fileName,
         { st with cloudObjects := st.cloudObjects ++ [b] }) := by
  simp [Upload.uploadHandler, hdup]

/-- Witness for `upload_duplicate_after_cloud_write`. -/
theorem upload_duplicate_after_cloud_write_witness :
    Upload.uploadHandler
        ⟨[[7]], [⟨"u", "old.txt", generateFileHash [4], 1, "text/plain", "unknown",
                "pending", none⟩]⟩
        "u" "new.txt" "text/plain" (some [4]) true none
      = (Upload.Result.conflict "old.txt",
         ⟨[[7], [4]], [⟨"u", "old.txt", generateFileHash [4], 1, "text/plain", "unknown",
                      "pending", none⟩]⟩) :=
  upload_duplicate_after_cloud_write
    ⟨[[7]], [⟨"u", "old.txt", generateFileHash [4], 1, "text/plain", "unknown",
            "pending", none⟩]⟩
    "u" "new.txt" "text/plain" [4] none
    ⟨"u", "old.txt", generateFileHash [4], 1, "text/plain", "unknown", "pending", none⟩
    (by decide)

/-- Each hex encoding step emits two characters. -/
theorem bytesToHex_length (l : List Nat) :
    (Sha256.bytesToHex l).length = 2 * l.length := by
  induction l with
  | nil => rfl
  | cons b rest ih =>
    simp [Sha256.bytesToHex, ih]
    ring

/-- The SHA-256 digest always has 32 bytes. -/
theorem sha256_length (msg : List Nat) : (Sha256.sha256 msg).length = 32 := by
  simp [Sha256.sha256, Sha256.digestBytes, Sha256.wordBytes]

/-- Digest bytes are below 256. -/
theorem sha256_bytes_lt (msg : List Nat) : ∀ b ∈ Sha256.sha256 msg, b < 256 := by
  intro b hb
  simp [Sha256.sha256, Sha256.digestBytes, Sha256.wordBytes] at hb
  omega

/-- The hex digit of a value below 16 is in the lowercase hex alphabet. -/
theorem hexDigit_mem (n : Nat) (h : n < 16) :
    Sha256.hexDigit n ∈ "0123456789abcdef".toList := by
  interval_cases n <;> decide

/-- Hex encodings of byte lists use only the lowercase hex alphabet. -/
theorem bytesToHex_mem (l : List Nat) (hl : ∀ b ∈ l, b < 256) :
    ∀ c ∈ Sha256.bytesToHex l, c ∈ "0123456789abcdef".toList := by
  induction l with
  | nil => simp [Sha256.bytesToHex]
  | cons b rest ih =>
    intro c hc
    have hb : b < 256 := hl b (by simp)
    simp [Sha256.bytesToHex] at hc
    rcases hc with rfl | rfl | hc
    · exact hexDigit_mem _ (by omega)
    · exact hexDigit_mem _ (by omega)
    · exact ih (fun x hx => hl x (by simp [hx])) c hc

/-- C3 amended: the content digest on both upload paths is a 66-character
string — the characters 0 and x followed by 64 lowercase hex characters —
and the public verify endpoint validator, which accepts only 64-character
strings, rejects it. -/
theorem generateFileHash_format (b : List Nat) :
    ∃ hexPart : List Char,
      generateFileHash b = String.mk (Char.ofNat 48 :: Char.ofNat 120 :: hexPart)
      ∧ hexPart.length = 64
      ∧ (∀ c ∈ hexPart, c ∈ "0123456789abcdef".toList)
      ∧ frontendGenerateFileHash b = generateFileHash b
      ∧ (generateFileHash b).length = 66
      ∧ hashLengthValid (generateFileHash b) = false := by
  refine ⟨Sha256.bytesToHex (Sha256.sha256 b), rfl, ?_, ?_, rfl, ?_, ?_⟩
  · rw [bytesToHex_length, sha256_length]
  · exact bytesToHex_mem _ (sha256_bytes_lt b)
  · show (Sha256.bytesToHex (Sha256.sha256 b)).length + 2 = 66
    rw [bytesToHex_length, sha256_length]
  · have hlen : (generateFileHash b).length = 66 := by
      show (Sha256.bytesToHex (Sha256.sha256 b)).length + 2 = 66
      rw [bytesToHex_length, sha256_length]
    simp [hashLengthValid, hlen]

/-- C3 counterexample: the digest of the empty file is the standard SHA-256
vector with a 0x prefix — 66 characters, not 64, and rejected by the public
verify validator. -/
theorem generateFileHash_not64_counterexample :
    generateFileHash []
        = "0xe3b0c44298fc1c149afbf4c8996fb92427ae41e4649b934ca495991b7852b855"
    ∧ (generateFileHash []).length ≠ 64
    ∧ hashLengthValid (generateFileHash []) = false := by
  refine ⟨by decide, by decide, by decide⟩

namespace Submit

/-- Outcome of the POST /submit/:fileId handler of
`backend/src/routes/verification.js` (the 404 branch is omitted: the record
under consideration is given; a throw before the blockchain attempt, e.g.
during wallet decryption, hits the top-level catch and performs no record
update at all). -/
inductive Result where
  | accessDenied
  | alreadyVerified
  | blockchainFailed (details : String)
  | success (transactionHash : String)
deriving DecidableEq, Repr

/-- The POST /submit/:fileId handler: 403 unless the acting uid owns the
record, 400 when the record is already `verified`, otherwise submit to the
blockchain (`chain` is the outcome of `submitHashToBlockchain`: the
transaction hash, or the thrown error) and set the status to `verified`
(attaching the transaction hash) on success or `failed` on a throw. -/
def submitForVerification (r : Upload.FileRecord) (uid : String)
    (chain : Except String String) : Result × Upload.FileRecord :=
  if r.userId ≠ uid then (.accessDenied, r)
  else if r.verificationStatus == "verified" then (.alreadyVerified, r)
  else
    match chain with
    | .error e => (.blockchainFailed e, { r with verificationStatus := "failed" })
    | .ok tx => (.success tx,
        { r with verificationStatus := "verified", transactionHash := some tx })

end Submit

/-- C4 counterexample: a record whose status is `failed` is accepted for
resubmission and moves to `verified` — the transition failed→verified is
reachable, contradicting the claim that only pending→verified and
pending→failed exist. -/
theorem submit_failed_to_verified_counterexample :
    Submit.submitForVerification
        ⟨"u", "a.txt", "0xdead", 1, "text/plain", "0xabc", "failed", none⟩
        "u" (.ok "0xtx")
      = (.success "0xtx",
         ⟨"u", "a.txt", "0xdead", 1, "text/plain", "0xabc", "verified", some "0xtx"⟩) := by
  decide

/-- C4 amended: upload creates records with status `pending`; the submit
handler refuses a `verified` record and leaves it unchanged (verified is
terminal), and from any other status — `pending` or `failed` — moves to
`verified` with the transaction hash attached when the blockchain submission
succeeds, or to `failed` when it throws.  So the reachable transitions are
pending→verified, pending→failed, failed→verified and failed→failed. -/
theorem submit_status_transitions (r : Upload.FileRecord) (uid : String)
    (chain : Except String String) (hown : r.userId = uid) :
    (r.verificationStatus = "verified" →
      Submit.submitForVerification r uid chain = (.alreadyVerified, r))
    ∧ (r.verificationStatus ≠ "verified" →
        (∀ e, chain = .error e →
          Submit.submitForVerification r uid chain
            = (.blockchainFailed e, { r with verificationStatus := "failed" }))
        ∧ (∀ tx, chain = .ok tx →
          Submit.submitForVerification r uid chain
            = (.success tx,
               { r with verificationStatus := "verified", transactionHash := some tx })))
    ∧ (∀ st u nm mi b w rec,
        (Upload.uploadHandler st u nm mi (some b) true w).1 = Upload.Result.created rec →
        rec.verificationStatus = "pending") := by
  refine ⟨?_, ?_, ?_⟩
  · intro hv
    simp [Submit.submitForVerification, hown, hv]
  · intro hv
    constructor
    · intro e he
      subst he
      simp [Submit.submitForVerification, hown, hv]
    · intro tx htx
      subst htx
      simp [Submit.submitForVerification, hown, hv]
  · intro st u nm mi b w rec hcr
    unfold Upload.uploadHandler at hcr
    simp only [Bool.not_true, Bool.false_eq_true, if_false] at hcr
    cases hf : Upload.findUserFile st.files u (generateFileHash b) with
    | some ex => simp [hf] at hcr
    | none =>
      simp [hf] at hcr
      rw [← hcr]

/-- Witness for `submit_status_transitions`: an already verified record is
refused unchanged. -/
theorem submit_status_transitions_witness :
    Submit.submitForVerification
        ⟨"u", "a.txt", "0xh", 1, "text/plain", "w", "verified", some "0xtx"⟩ "u"
        (.ok "0xnew")
      = (.alreadyVerified,
         ⟨"u", "a.txt", "0xh", 1, "text/plain", "w", "verified", some "0xtx"⟩) :=
  (submit_status_transitions
      ⟨"u", "a.txt", "0xh", 1, "text/plain", "w", "verified", some "0xtx"⟩ "u"
      (.ok "0xnew") rfl).1 rfl

namespace Verification

/-- The record the backend read wrapper returns: (exists, submitter,
timestamp) as JavaScript values — the submitter an address string. -/
structure ChainResult where
  bcExists : Bool
  submitter : String
  timestamp : Nat
deriving DecidableEq, Repr

/-- ethers ABI decoding of a Solidity `address` into its hex string: 0x plus
40 hex characters.  (ethers EIP-55-checksums the letter case of nonzero
addresses; the zero address, the only one compared against below, renders
identically either way.) -/
def addressToHex (a : Nat) : String :=
  String.mk (Char.ofNat 48 :: Char.ofNat 120 ::
    Sha256.bytesToHex ((List.range 20).map (fun i => (a >>> (8 * (19 - i))) % 256)))

/-- `verifyHashOnBlockchain` of `backend/src/routes/verification.js`: when no
contract is configured, return the mock result; when the provider call
throws, catch and return the same zero result; otherwise decode the tuple
returned by `verifyHash`. -/
def verifyHashOnBlockchain (configured : Bool)
    (call : Except String (Bool × String × Nat)) : ChainResult :=
  if !configured then ⟨false, "", 0⟩
  else
    match call with
    | .error _ => ⟨false, "", 0⟩
    | .ok (e, s, t) => ⟨e, s, t⟩

/-- A live provider serving the TruthProof contract: the `verifyHash` read
with its address decoded to hex, delivered without a throw. -/
def liveCall (st : TruthProof.State) (h : Nat) : Except String (Bool × String × Nat) :=
  let r := TruthProof.verifyHash st h
  .ok (r.1, addressToHex r.2.1, r.2.2)

/-- `getTransactionUrl`: explorer URL by configured network. -/
def getTransactionUrl (network txHash : String) : String :=
  if network == "mumbai" then "https://mumbai.polygonscan.com/tx/" ++ txHash
  else if network == "sepolia" then "https://sepolia.etherscan.io/tx/" ++ txHash
  else "https://etherscan.io/tx/" ++ txHash

/-- The file metadata the verify endpoint attaches from Firestore. -/
structure FileMetadata where
  fileName : String
  fileSize : Nat
  fileType : String
  uploadTime : String
  userId : String
deriving DecidableEq, Repr

/-- The `verification` object of the POST /verify response body. -/
structure VerifyResponse where
  hash : String
  vExists : Bool
  submitter : String
  timestamp : Nat
  transactionUrl : Option String
  fileMetadata : Option FileMetadata
deriving DecidableEq, Repr

/-- POST /api/verification/verify: 400 unless the hash field passes the
64-character validator; otherwise combine the read wrapper result with the
optional Firestore metadata (the transaction URL is built from the hash
itself, as in the source). -/
def verifyEndpoint (network hash : String) (configured : Bool)
    (call : Except String (Bool × String × Nat)) (meta : Option FileMetadata) :
    Except String VerifyResponse :=
  if !(hashLengthValid hash) then .error "Hash must be 64 characters long"
  else
    let bc := verifyHashOnBlockchain configured call
    .ok ⟨hash, bc.bcExists, bc.submitter, bc.timestamp,
         if bc.bcExists then some (getTransactionUrl network hash) else none, meta⟩

end Verification

/-- C10 counterexample: for a well-formed hash, the verify response under a
throwing provider differs from the response for a hash never registered on a
live contract — the submitter field is the empty string in the first and the
40-zero hex address in the second. -/
theorem verify_provider_failure_distinguishable_counterexample :
    Verification.verifyHashOnBlockchain true (.error "provider down")
      = ⟨false, "", 0⟩
    ∧ Verification.verifyEndpoint "mumbai"
        (String.mk (List.replicate 64 (Char.ofNat 97))) true
        (.error "provider down") none
      = .ok ⟨String.mk (List.replicate 64 (Char.ofNat 97)), false, "", 0, none, none⟩
    ∧ Verification.verifyEndpoint "mumbai"
        (String.mk (List.replicate 64 (Char.ofNat 97))) true
        (Verification.liveCall TruthProof.State.init 5) none
      = .ok ⟨String.mk (List.replicate 64 (Char.ofNat 97)), false,
             Verification.addressToHex 0, 0, none, none⟩
    ∧ ("" : String) ≠ Verification.addressToHex 0 := by
  exact ⟨rfl, rfl, rfl, by decide⟩

/-- C10 amended: the read wrapper never propagates an error — unconfigured
contract and throwing calls both yield the zero mock — and for a well-formed
hash the endpoint response under a provider failure matches the
never-registered live response in every field except `submitter`, which is
the empty string instead of the zero address hex string. -/
theorem verifyHashOnBlockchain_soft_fail (network hash e : String)
    (call : Except String (Bool × String × Nat)) (st : TruthProof.State) (h : Nat)
    (meta : Option Verification.FileMetadata)
    (hlen : hashLengthValid hash = true)
    (habs : st.fileVerifications h = TruthProof.FileVerification.zero) :
    Verification.verifyHashOnBlockchain false call = ⟨false, "", 0⟩
    ∧ Verification.verifyHashOnBlockchain true (.error e) = ⟨false, "", 0⟩
    ∧ (∃ r1 r2 : Verification.VerifyResponse,
        Verification.verifyEndpoint network hash true (.error e) meta = .ok r1
        ∧ Verification.verifyEndpoint network hash true
            (Verification.liveCall st h) meta = .ok r2
        ∧ r1.vExists = false ∧ r2.vExists = false
        ∧ r1.timestamp = r2.timestamp
        ∧ r1.transactionUrl = r2.transactionUrl
        ∧ r1.fileMetadata = r2.fileMetadata
        ∧ r1.submitter = ""
        ∧ r2.submitter = Verification.addressToHex 0
        ∧ r1 ≠ r2) := by
  refine ⟨rfl, rfl, ?_⟩
  refine ⟨⟨hash, false, "", 0, none, meta⟩,
          ⟨hash, false, Verification.addressToHex 0, 0, none, meta⟩,
          ?_, ?_, rfl, rfl, rfl, rfl, rfl, rfl, rfl, ?_⟩
  · simp [Verification.verifyEndpoint, hlen, Verification.verifyHashOnBlockchain]
  · simp [Verification.verifyEndpoint, hlen, Verification.verifyHashOnBlockchain,
      Verification.liveCall, TruthProof.verifyHash, habs, TruthProof.FileVerification.zero]
  · intro hcontra
    have : ("" : String) = Verification.addressToHex 0 :=
      congrArg Verification.VerifyResponse.submitter hcontra
    exact absurd this (by decide)

/-- Witness for `verifyHashOnBlockchain_soft_fail` at a concrete hash and the
empty registry. -/
theorem verifyHashOnBlockchain_soft_fail_witness :
    Verification.verifyHashOnBlockchain false (.ok (true, "x", 3)) = ⟨false, "", 0⟩
    ∧ Verification.verifyHashOnBlockchain true (.error "boom") = ⟨false, "", 0⟩
    ∧ (∃ r1 r2 : Verification.VerifyResponse,
        Verification.verifyEndpoint "mumbai"
            (String.mk (List.replicate 64 (Char.ofNat 98))) true (.error "boom") none
          = .ok r1
        ∧ Verification.verifyEndpoint "mumbai"
            (String.mk (List.replicate 64 (Char.ofNat 98))) true
            (Verification.liveCall TruthProof.State.init 7) none = .ok r2
        ∧ r1.vExists = false ∧ r2.vExists = false
        ∧ r1.timestamp = r2.timestamp
        ∧ r1.transactionUrl = r2.transactionUrl
        ∧ r1.fileMetadata = r2.fileMetadata
        ∧ r1.submitter = ""
        ∧ r2.submitter = Verification.addressToHex 0
        ∧ r1 ≠ r2) :=
  verifyHashOnBlockchain_soft_fail "mumbai"
    (String.mk (List.replicate 64 (Char.ofNat 98))) "boom" (.ok (true, "x", 3))
    TruthProof.State.init 7 none (by decide) rfl

namespace Tamper

/-- The EXIF fields `analyzeImageMetadata` reads.  Timestamps are instants
(integers) as produced by the Date comparison in the source; absent fields
are `none`.  (JS falsiness also treats a numeric 0 GPS coordinate as absent;
such a coordinate is encoded as `none` here.) -/
structure ExifData where
  software : Option String
  dateTimeOriginal : Option Int
  createDate : Option Int
  modifyDate : Option Int
  gpsLatitude : Option ℚ
  gpsLongitude : Option ℚ
deriving DecidableEq, Repr

/-- The analysis object: status, human-readable details, confidence.  The
extracted-metadata payload echoed back by the source carries no decision
logic and is not modelled. -/
structure Analysis where
  status : String
  details : String
  confidence : ℚ
deriving DecidableEq, Repr

/-- JavaScript `String.prototype.includes`: `t` occurs somewhere in `s`. -/
def containsSubstring (s t : String) : Bool :=
  (List.range (s.data.length + 1)).any (fun i => t.data.isPrefixOf (s.data.drop i))

/-- The editing-software markers of the image heuristic. -/
def editingSoftware : List String := ["photoshop", "gimp", "paint", "canva", "figma"]

/-- `analyzeImageMetadata`: `exif` is the outcome of `exifr.parse` — a throw
(caught into status failed), no metadata at all, or the parsed fields.  The
metadata path starts at confidence 0.9 and subtracts a fixed penalty per
indicator, then derives the status from the final confidence. -/
def analyzeImageMetadata (exif : Except String (Option ExifData)) : Analysis :=
  match exif with
  | .error _ => ⟨"failed", "Failed to analyze image metadata", 0⟩
  | .ok none =>
      ⟨"suspicious", "No EXIF metadata found - file may have been stripped of metadata",
       7 / 10⟩
  | .ok (some d) =>
      let s0 : List String × ℚ := ([], 9 / 10)
      let s1 :=
        match d.software with
        | some s =>
            if editingSoftware.any (fun ed => containsSubstring s.toLower ed) then
              (s0.1 ++ ["File was edited with image editing software"], s0.2 - 2 / 10)
            else s0
        | none => s0
      let s2 :=
        if d.dateTimeOriginal.isNone && d.createDate.isNone then
          (s1.1 ++ ["Missing original creation timestamp"], s1.2 - 3 / 10)
        else s1
      let s3 :=
        match d.dateTimeOriginal, d.modifyDate with
        | some o, some m =>
            if m < o then
              (s2.1 ++ ["Modification date is before creation date"], s2.2 - 4 / 10)
            else s2
        | _, _ => s2
      let s4 :=
        match d.gpsLatitude, d.gpsLongitude with
        | some lat, some lng =>
            if lat < -90 ∨ lat > 90 ∨ lng < -180 ∨ lng > 180 then
              (s3.1 ++ ["Invalid GPS coordinates"], s3.2 - 3 / 10)
            else s3
        | _, _ => s3
      if s4.2 < (6 / 10 : ℚ) then
        ⟨"suspicious", "Suspicious indicators found: " ++ String.intercalate ", " s4.1,
         s4.2⟩
      else if s4.2 < (8 / 10 : ℚ) then
        ⟨"suspicious", "Some suspicious indicators detected", s4.2⟩
      else ⟨"clean", "Image appears to be authentic", s4.2⟩

/-- Node `buffer.toString(ascii, 0, len)`: each byte masked to 7 bits. -/
def asciiSlice (buffer : List Nat) (len : Nat) : String :=
  String.mk ((buffer.take len).map (fun b => Char.ofNat (b % 128)))

/-- The editor markers of the PDF heuristic. -/
def suspiciousTerms : List String :=
  ["/Creator", "/Producer", "/ModDate", "/CreationDate", "Adobe", "Acrobat",
   "PDF-XChange", "Foxit"]

/-- `analyzePDFMetadata`: reject a buffer whose 8-byte ascii header does not
start with the PDF signature (confidence 0, suspicious); otherwise scan the
leading 1000 bytes for editor markers, degrading confidence 0.1 per marker
found, floored at 0.5 — the status stays clean on that branch. -/
def analyzePDFMetadata (buffer : List Nat) : Analysis :=
  let pdfHeader := asciiSlice buffer 8
  if !(pdfHeader.startsWith "%PDF-") then ⟨"suspicious", "Invalid PDF format", 0⟩
  else
    let pdfContent := asciiSlice buffer 1000
    let foundTerms := suspiciousTerms.filter (fun term => containsSubstring pdfContent term)
    if foundTerms.length > 0 then
      ⟨"clean",
       "PDF contains editing software indicators: " ++ String.intercalate ", " foundTerms,
       max (1 / 2) (8 / 10 - (foundTerms.length : ℚ) * (1 / 10))⟩
    else ⟨"clean", "PDF appears to be authentic", 8 / 10⟩

/-- The office-tool markers of the generic-document heuristic. -/
def officePatterns : List String :=
  ["Microsoft Word", "Google Docs", "LibreOffice", "OpenOffice", "WPS Office"]

/-- `analyzeDocumentMetadata`: flag very small files as suspicious, then scan
a 2000-byte ascii window (case-insensitively) for office-tool names; when
found, overwrite details and set confidence to max 0.5 (0.7 − 0.1·count). -/
def analyzeDocumentMetadata (buffer : List Nat) : Analysis :=
  let a0 : Analysis := ⟨"clean", "Document appears to be authentic", 7 / 10⟩
  let a1 := if buffer.length < 100 then
      (⟨"suspicious", "File size is unusually small", 3 / 10⟩ : Analysis)
    else a0
  let content := asciiSlice buffer 2000
  let found := officePatterns.filter
    (fun p => containsSubstring content.toLower p.toLower)
  if found.length > 0 then
    ⟨a1.status, "Document was created with: " ++ String.intercalate ", " found,
     max (1 / 2) (7 / 10 - (found.length : ℚ) * (1 / 10))⟩
  else a1

/-- One uploaded file of the analyze endpoints: its declared mimetype, its
bytes, and the outcome `exifr.parse` would give on those bytes (an external
library call, supplied as data). -/
structure AnalyzeFile where
  originalname : String
  mimetype : String
  buffer : List Nat
  exif : Except String (Option ExifData)

/-- The per-file routing of POST /analyze and POST /analyze-batch. -/
def analyzeOne (f : AnalyzeFile) : Analysis :=
  if f.mimetype.startsWith "image/" then analyzeImageMetadata f.exif
  else if f.mimetype == "application/pdf" then analyzePDFMetadata f.buffer
  else analyzeDocumentMetadata f.buffer

/-- The summary block of the analyze-batch response. -/
structure AnalyzeSummary where
  totalFiles : Nat
  overallConfidence : ℚ
  suspiciousFiles : Nat
  failedAnalyses : Nat
  cleanFiles : Nat
deriving DecidableEq, Repr

/-- POST /analyze-batch: 400 when no files are given, otherwise analyze each
file in turn (the per-file analyzers are total — they catch their own
errors) and aggregate the mean confidence and the per-status counts. -/
def analyzeBatchEndpoint (files : List AnalyzeFile) :
    Except String (List Analysis × AnalyzeSummary) :=
  if files.length = 0 then .error "No files provided"
  else
    let analyses := files.map analyzeOne
    let overall := (analyses.map (fun a => a.confidence)).sum / (analyses.length : ℚ)
    let susp := (analyses.filter (fun a => a.status == "suspicious")).length
    let failedCount := (analyses.filter (fun a => a.status == "failed")).length
    .ok (analyses,
      ⟨analyses.length, overall, susp, failedCount, analyses.length - susp - failedCount⟩)

end Tamper

/-- C8: the two fixed outputs of the tamper heuristic — an image with no
extractable metadata is suspicious with confidence exactly 0.7, and a buffer
on the PDF path whose leading bytes do not begin with the PDF signature is
suspicious with confidence exactly 0. -/
theorem tamper_fixed_outputs (buffer : List Nat)
    (hpdf : (Tamper.asciiSlice buffer 8).startsWith "%PDF-" = false) :
    Tamper.analyzeImageMetadata (.ok none)
      = ⟨"suspicious", "No EXIF metadata found - file may have been stripped of metadata",
         7 / 10⟩
    ∧ Tamper.analyzePDFMetadata buffer = ⟨"suspicious", "Invalid PDF format", 0⟩ := by
  constructor
  · unfold Tamper.analyzeImageMetadata
    rfl
  · simp [Tamper.analyzePDFMetadata, hpdf]

/-- Witness for `tamper_fixed_outputs` on a three-byte non-PDF buffer. -/
theorem tamper_fixed_outputs_witness :
    Tamper.analyzeImageMetadata (.ok none)
      = ⟨"suspicious", "No EXIF metadata found - file may have been stripped of metadata",
         7 / 10⟩
    ∧ Tamper.analyzePDFMetadata [1, 2, 3] = ⟨"suspicious", "Invalid PDF format", 0⟩ :=
  tamper_fixed_outputs [1, 2, 3] (by decide)


namespace Verification

/-- One element of the batch verify response: the full per-hash result, or
the error-tagged entry pushed by the per-item catch. -/
inductive BatchItem where
  | ok (hash : String) (bcExists : Bool) (submitter : String) (timestamp : Nat)
       (transactionUrl : Option String) (fileMetadata : Option FileMetadata)
  | err (hash : String) (message : String)
deriving DecidableEq, Repr

/-- The summary block of the batch verify response. -/
structure BatchSummary where
  total : Nat
  verified : Nat
  notFound : Nat
  errors : Nat
deriving DecidableEq, Repr

/-- Per-item input to the batch loop: the hash, the contract-read outcome
(consumed by `verifyHashOnBlockchain`, which never throws) and the Firestore
metadata fetch, the one call inside the per-item try that can throw. -/
structure BatchItemEnv where
  hash : String
  call : Except String (Bool × String × Nat)
  dbFetch : Except String (Option FileMetadata)

/-- The body of the per-item try/catch of POST /verify-batch. -/
def verifyBatchItem (network : String) (configured : Bool)
    (it : BatchItemEnv) : BatchItem :=
  let bc := verifyHashOnBlockchain configured it.call
  match it.dbFetch with
  | .error e => .err it.hash e
  | .ok meta =>
      .ok it.hash bc.bcExists bc.submitter bc.timestamp
        (if bc.bcExists then some (getTransactionUrl network it.hash) else none) meta

/-- An error-tagged batch entry (`r.error` is set). -/
def isErr : BatchItem → Bool
  | .err _ _ => true
  | _ => false

/-- A batch entry counted as verified (`r.exists` is set). -/
def itemExists : BatchItem → Bool
  | .ok _ e _ _ _ _ => e
  | _ => false

/-- POST /api/verification/verify-batch: the validator checks every hash for
the 64-character length and rejects the whole request with 400 when any item
fails; otherwise each item is processed inside its own try/catch and the
per-item results are aggregated with summary counts. -/
def verifyBatchEndpoint (network : String) (configured : Bool)
    (items : List BatchItemEnv) :
    Except (List String) (List BatchItem × BatchSummary) :=
  let bad := items.filter (fun it => !(hashLengthValid it.hash))
  if bad.length > 0 then
    .error (bad.map (fun _ => "Each hash must be 64 characters long"))
  else
    let results := items.map (verifyBatchItem network configured)
    .ok (results,
      ⟨results.length,
       (results.filter itemExists).length,
       (results.filter (fun r => !(itemExists r) && !(isErr r))).length,
       (results.filter isErr).length⟩)

end Verification

/-- Every batch entry is counted in exactly one of verified, notFound,
errors. -/
theorem batch_counts_partition (rs : List Verification.BatchItem) :
    (rs.filter Verification.itemExists).length
    + (rs.filter (fun r => !(Verification.itemExists r) && !(Verification.isErr r))).length
    + (rs.filter Verification.isErr).length = rs.length := by
  induction rs with
  | nil => rfl
  | cons r rest ih =>
    rw [List.filter_cons, List.filter_cons, List.filter_cons]
    set A := rest.filter Verification.itemExists with hA
    set B := rest.filter
      (fun r => !(Verification.itemExists r) && !(Verification.isErr r)) with hB
    set C := rest.filter Verification.isErr with hC
    cases r with
    | ok h e s t u m =>
      cases e <;>
        simp [Verification.itemExists, Verification.isErr] <;> omega
    | err h m =>
      simp [Verification.itemExists, Verification.isErr]
      omega

/-- C6 counterexample: a batch of two hashes, one malformed (too short), is
rejected whole with the validation error — there are no per-item results at
all, not n-1 successes plus one error-tagged result. -/
theorem verifyBatch_malformed_aborts_counterexample :
    Verification.verifyBatchEndpoint "mumbai" true
        [⟨String.mk (List.replicate 64 (Char.ofNat 97)), .ok (false, "", 0), .ok none⟩,
         ⟨"abc", .ok (false, "", 0), .ok none⟩]
      = .error ["Each hash must be 64 characters long"]
    ∧ ∀ rs, Verification.verifyBatchEndpoint "mumbai" true
        [⟨String.mk (List.replicate 64 (Char.ofNat 97)), .ok (false, "", 0), .ok none⟩,
         ⟨"abc", .ok (false, "", 0), .ok none⟩] ≠ .ok rs := by
  refine ⟨rfl, fun rs h => ?_⟩
  rw [show Verification.verifyBatchEndpoint "mumbai" true
        [⟨String.mk (List.replicate 64 (Char.ofNat 97)), .ok (false, "", 0), .ok none⟩,
         ⟨"abc", .ok (false, "", 0), .ok none⟩]
      = .error ["Each hash must be 64 characters long"] from rfl] at h
  exact Except.noConfusion h

/-- C6 amended: a malformed item (failing the 64-character validation)
rejects the whole verify-batch request before any item is processed; an item
whose processing throws inside the loop is isolated — the other n−1 items
still produce full results and the summary counts add up; and analyze-batch
always returns one analysis per file (the per-file analyzers are total), so
no item aborts the processing of the others. -/
theorem batch_isolation (network : String) (configured : Bool) :
    (∀ items : List Verification.BatchItemEnv,
      (∃ it ∈ items, hashLengthValid it.hash = false) →
      ∃ msgs, Verification.verifyBatchEndpoint network configured items
        = .error msgs)
    ∧ (∀ (pre post : List Verification.BatchItemEnv)
        (bad : Verification.BatchItemEnv) (e : String),
        (∀ it ∈ pre ++ bad :: post, hashLengthValid it.hash = true) →
        bad.dbFetch = .error e →
        (∀ it ∈ pre ++ post, ∃ m, it.dbFetch = .ok m) →
        ∃ results summary,
          Verification.verifyBatchEndpoint network configured (pre ++ bad :: post)
            = .ok (results, summary)
          ∧ results.length = pre.length + post.length + 1
          ∧ (results.filter Verification.isErr).length = 1
          ∧ (results.filter (fun r => !(Verification.isErr r))).length
              = pre.length + post.length
          ∧ summary.total = pre.length + post.length + 1
          ∧ summary.errors = 1
          ∧ summary.verified + summary.notFound = pre.length + post.length)
    ∧ (∀ files : List Tamper.AnalyzeFile, files ≠ [] →
        ∃ analyses summary,
          Tamper.analyzeBatchEndpoint files = .ok (analyses, summary)
          ∧ analyses.length = files.length
          ∧ summary.totalFiles = files.length) := by
  refine ⟨?_, ?_, ?_⟩
  · rintro items ⟨it, hit, hbad⟩
    unfold Verification.verifyBatchEndpoint
    have hmem : it ∈ items.filter (fun it => !(hashLengthValid it.hash)) :=
      List.mem_filter.mpr ⟨hit, by simp [hbad]⟩
    have hpos : 0 < (items.filter (fun it => !(hashLengthValid it.hash))).length :=
      List.length_pos.mpr (List.ne_nil_of_mem hmem)
    rw [if_pos hpos]
    exact ⟨_, rfl⟩
  · intro pre post bad e hvalid hbad hok
    have hpreOk : ∀ it ∈ pre, ∃ m, it.dbFetch = Except.ok m := by
      intro it hit
      exact hok it (List.mem_append.mpr (Or.inl hit))
    have hpostOk : ∀ it ∈ post, ∃ m, it.dbFetch = Except.ok m := by
      intro it hit
      exact hok it (List.mem_append.mpr (Or.inr hit))
    have hnone : (pre ++ bad :: post).filter (fun it => !(hashLengthValid it.hash)) = [] := by
      rw [List.filter_eq_nil_iff]
      intro a ha
      simp [hvalid a ha]
    have herrOf : ∀ it : Verification.BatchItemEnv, (∃ m, it.dbFetch = Except.ok m) →
        Verification.isErr (Verification.verifyBatchItem network configured it) = false := by
      rintro it ⟨m, hm⟩
      simp [Verification.verifyBatchItem, hm, Verification.isErr]
    have herrBad :
        Verification.isErr (Verification.verifyBatchItem network configured bad) = true := by
      simp [Verification.verifyBatchItem, hbad, Verification.isErr]
    have hpreNil : (pre.map (Verification.verifyBatchItem network configured)).filter
        Verification.isErr = [] := by
      rw [List.filter_eq_nil_iff]
      intro r hr
      obtain ⟨it, hit, rfl⟩ := List.mem_map.mp hr
      simp [herrOf it (hpreOk it hit)]
    have hpostNil : (post.map (Verification.verifyBatchItem network configured)).filter
        Verification.isErr = [] := by
      rw [List.filter_eq_nil_iff]
      intro r hr
      obtain ⟨it, hit, rfl⟩ := List.mem_map.mp hr
      simp [herrOf it (hpostOk it hit)]
    have hpreSelf : (pre.map (Verification.verifyBatchItem network configured)).filter
        (fun r => !(Verification.isErr r)) = pre.map (Verification.verifyBatchItem network configured) := by
      rw [List.filter_eq_self]
      intro r hr
      obtain ⟨it, hit, rfl⟩ := List.mem_map.mp hr
      simp [herrOf it (hpreOk it hit)]
    have hpostSelf : (post.map (Verification.verifyBatchItem network configured)).filter
        (fun r => !(Verification.isErr r)) = post.map (Verification.verifyBatchItem network configured) := by
      rw [List.filter_eq_self]
      intro r hr
      obtain ⟨it, hit, rfl⟩ := List.mem_map.mp hr
      simp [herrOf it (hpostOk it hit)]
    have hresmap : (pre ++ bad :: post).map (Verification.verifyBatchItem network configured)
        = pre.map (Verification.verifyBatchItem network configured)
          ++ Verification.verifyBatchItem network configured bad
            :: post.map (Verification.verifyBatchItem network configured) := by
      simp
    have hErrCount : (((pre ++ bad :: post).map
        (Verification.verifyBatchItem network configured)).filter
          Verification.isErr).length = 1 := by
      rw [hresmap, List.filter_append, List.filter_cons, hpreNil, hpostNil, if_pos herrBad]
      simp
    have hOkCount : (((pre ++ bad :: post).map
        (Verification.verifyBatchItem network configured)).filter
          (fun r => !(Verification.isErr r))).length = pre.length + post.length := by
      rw [hresmap, List.filter_append, List.filter_cons, hpreSelf, hpostSelf]
      rw [if_neg (by simp [herrBad])]
      simp
    have hlen : ((pre ++ bad :: post).map
        (Verification.verifyBatchItem network configured)).length
        = pre.length + post.length + 1 := by
      simp
      omega
    have hendpoint : Verification.verifyBatchEndpoint network configured (pre ++ bad :: post)
        = .ok ((pre ++ bad :: post).map (Verification.verifyBatchItem network configured),
          ⟨((pre ++ bad :: post).map (Verification.verifyBatchItem network configured)).length,
           (((pre ++ bad :: post).map (Verification.verifyBatchItem network configured)).filter
              Verification.itemExists).length,
           (((pre ++ bad :: post).map (Verification.verifyBatchItem network configured)).filter
              (fun r => !(Verification.itemExists r) && !(Verification.isErr r))).length,
           (((pre ++ bad :: post).map (Verification.verifyBatchItem network configured)).filter
              Verification.isErr).length⟩) := by
      unfold Verification.verifyBatchEndpoint
      rw [hnone]
      rfl
    refine ⟨_, _, hendpoint, hlen, hErrCount, hOkCount, hlen, hErrCount, ?_⟩
    have hpart := batch_counts_partition
      ((pre ++ bad :: post).map (Verification.verifyBatchItem network configured))
    dsimp only
    omega
  · intro files hne
    have hlen : files.length ≠ 0 := by
      simpa [List.length_eq_zero] using hne
    refine ⟨files.map Tamper.analyzeOne,
      ⟨(files.map Tamper.analyzeOne).length,
       ((files.map Tamper.analyzeOne).map (fun a => a.confidence)).sum
         / ((files.map Tamper.analyzeOne).length : ℚ),
       ((files.map Tamper.analyzeOne).filter (fun a => a.status == "suspicious")).length,
       ((files.map Tamper.analyzeOne).filter (fun a => a.status == "failed")).length,
       (files.map Tamper.analyzeOne).length
         - ((files.map Tamper.analyzeOne).filter (fun a => a.status == "suspicious")).length
         - ((files.map Tamper.analyzeOne).filter (fun a => a.status == "failed")).length⟩,
      ?_, by simp, by simp⟩
    unfold Tamper.analyzeBatchEndpoint
    rw [if_neg hlen]

/-- Witness for `batch_isolation`: a two-item batch whose second item's
metadata fetch throws — one error-tagged result, one full result. -/
theorem batch_isolation_witness :
    ∃ results summary,
      Verification.verifyBatchEndpoint "mumbai" true
          [⟨String.mk (List.replicate 64 (Char.ofNat 97)), .ok (true, "0xs", 5), .ok none⟩,
           ⟨String.mk (List.replicate 64 (Char.ofNat 98)), .ok (false, "", 0),
            .error "db down"⟩]
        = .ok (results, summary)
      ∧ results.length = 2
      ∧ (results.filter Verification.isErr).length = 1
      ∧ (results.filter (fun r => !(Verification.isErr r))).length = 1
      ∧ summary.total = 2
      ∧ summary.errors = 1
      ∧ summary.verified + summary.notFound = 1 :=
  (batch_isolation "mumbai" true).2.1
    [⟨String.mk (List.replicate 64 (Char.ofNat 97)), .ok (true, "0xs", 5), .ok none⟩] []
    ⟨String.mk (List.replicate 64 (Char.ofNat 98)), .ok (false, "", 0), .error "db down"⟩
    "db down"
    (by
      intro it hit
      rcases List.mem_cons.mp hit with rfl | hit2
      · decide
      · rcases List.mem_cons.mp hit2 with rfl | h3
        · decide
        · exact absurd h3 (List.not_mem_nil it))
    rfl
    (by
      intro it hit
      rcases List.mem_singleton.mp hit with rfl
      exact ⟨none, rfl⟩)
